import Mathlib

/-!
Shallow embedding of the client-side auth session manager of the
qolca-basic-react-vite repository, covering:

* `src/lib/rateLimiter.ts` — the `RateLimiter` class (`checkLimit`,
  `recordAttempt`, `reset`) and its two configured instances;
* the token helpers `isTokenValid` / `isTokenExpiringSoon` and the
  zustand auth store operations (`logIn`, `logOut`, `getAccessToken`,
  `register`, `resendConfirmationEmail`, `confirmEmail`,
  `requestPasswordReset`, `resetPassword`, `changePassword`);
* `src/lib/axios.ts` — the response interceptor's 401 handling.

Conventions of the embedding:

* Times are `Int` milliseconds (`Date.now()` values).  JS arithmetic on
  these quantities is exact integer arithmetic at the magnitudes involved.
* Network calls are external effects; each operation takes the outcome of
  the calls it may perform as an explicit oracle argument.
* JWTs are modelled by what `jwtDecode` yields on them: either a payload
  with a numeric `exp` claim (seconds since epoch) or a decode failure.
* Each store operation returns, besides its result and the updated world,
  a trace of observable events: network requests issued and the state
  snapshot after every zustand `set` call, in program order.
-/

namespace Qolca

/-! ## Rate limiter (`src/lib/rateLimiter.ts`) -/

/-- `Math.ceil (a / 1000)` as JS computes it on the integer millisecond
quantities of the rate limiter (Lean's `Int` division is Euclidean, so
`(-a) / 1000` is the floor of the rational `-a/1000` and negating it gives
the ceiling of `a/1000`). -/
def jsCeilDiv1000 (a : Int) : Int := -((-a) / 1000)

/-- `RateLimitConfig` of `rateLimiter.ts`. -/
structure RateLimitConfig where
  maxAttempts : Int
  windowMs : Int
  blockDurationMs : Int
deriving DecidableEq, Repr

/-- `AttemptRecord` of `rateLimiter.ts`. -/
structure AttemptRecord where
  count : Int
  firstAttemptTime : Int
  blockedUntil : Option Int
deriving DecidableEq, Repr

/-- The `attempts` map of the `RateLimiter` class, as an association list. -/
abbrev AttemptMap := List (String × AttemptRecord)

/-- `this.attempts.get identifier`. -/
def mapGet (m : AttemptMap) (k : String) : Option AttemptRecord :=
  match m with
  | [] => none
  | (k', v) :: rest => if k' = k then some v else mapGet rest k

/-- `this.attempts.set k v` (replace any entry for `k`). -/
def mapSet (m : AttemptMap) (k : String) (v : AttemptRecord) : AttemptMap :=
  (k, v) :: m.filter (fun p => decide (p.1 ≠ k))

/-- `this.attempts.delete k`. -/
def mapDel (m : AttemptMap) (k : String) : AttemptMap :=
  m.filter (fun p => decide (p.1 ≠ k))

/-- JS truthiness of `record.blockedUntil && record.blockedUntil > now`
(`0` and `undefined` are falsy). -/
def blockedActive (r : AttemptRecord) (now : Int) : Bool :=
  match r.blockedUntil with
  | none => false
  | some b => decide (b ≠ 0) && decide (b > now)

/-- Return shape of `checkLimit`. -/
structure CheckResult where
  isAllowed : Bool
  retryAfter : Option Int := none
  attemptsRemaining : Option Int := none
deriving DecidableEq, Repr

/-- `RateLimiter.checkLimit` (rateLimiter.ts lines 35–88): returns the
result object and the possibly mutated attempts map. -/
def checkLimit (cfg : RateLimitConfig) (now : Int) (m : AttemptMap)
    (ident : String) : CheckResult × AttemptMap :=
  match mapGet m ident with
  | none =>
      ({ isAllowed := true, attemptsRemaining := some (cfg.maxAttempts - 1) }, m)
  | some record =>
      if blockedActive record now then
        ({ isAllowed := false,
           retryAfter := some (jsCeilDiv1000 (record.blockedUntil.getD 0 - now)) }, m)
      else if now - record.firstAttemptTime > cfg.windowMs then
        ({ isAllowed := true, attemptsRemaining := some (cfg.maxAttempts - 1) },
         mapDel m ident)
      else if record.count ≥ cfg.maxAttempts then
        ({ isAllowed := false,
           retryAfter := some (jsCeilDiv1000 cfg.blockDurationMs) },
         mapSet m ident { record with blockedUntil := some (now + cfg.blockDurationMs) })
      else
        ({ isAllowed := true,
           attemptsRemaining := some (cfg.maxAttempts - record.count - 1) }, m)

/-- `RateLimiter.recordAttempt` (rateLimiter.ts lines 94–111). -/
def recordAttempt (cfg : RateLimitConfig) (now : Int) (m : AttemptMap)
    (ident : String) : AttemptMap :=
  match mapGet m ident with
  | none => mapSet m ident { count := 1, firstAttemptTime := now, blockedUntil := none }
  | some record =>
      if now - record.firstAttemptTime > cfg.windowMs then
        mapSet m ident { count := 1, firstAttemptTime := now, blockedUntil := none }
      else
        mapSet m ident { record with count := record.count + 1 }

/-- `RateLimiter.reset` (rateLimiter.ts lines 117–119). -/
def rlReset (m : AttemptMap) (ident : String) : AttemptMap := mapDel m ident

/-- The `authRateLimiter` instance's configuration. -/
def authConfig : RateLimitConfig :=
  { maxAttempts := 5, windowMs := 15 * 60 * 1000, blockDurationMs := 15 * 60 * 1000 }

/-- The `apiRateLimiter` instance's configuration. -/
def apiConfig : RateLimitConfig :=
  { maxAttempts := 100, windowMs := 60 * 1000, blockDurationMs := 60 * 1000 }

/-! ### Map lemmas -/

theorem mapGet_mapSet_self (m : AttemptMap) (k : String) (v : AttemptRecord) :
    mapGet (mapSet m k v) k = some v := by
  simp [mapSet, mapGet]

theorem mapGet_filter_ne (m : AttemptMap) (k k' : String) (h : k' ≠ k) :
    mapGet (m.filter (fun p => decide (p.1 ≠ k))) k' = mapGet m k' := by
  induction m with
  | nil => rfl
  | cons hd tl ih =>
      by_cases hk : hd.1 = k
      · have : decide (hd.1 ≠ k) = false := by simp [hk]
        simp only [List.filter, this, mapGet]
        rw [ih]
        have : ¬ hd.1 = k' := by rw [hk]; exact fun hh => h hh.symm
        cases hd
        simp only [mapGet]
        simp_all

      · have : decide (hd.1 ≠ k) = true := by simp [hk]
        cases hd
        simp only [List.filter, this, mapGet] at *
        split <;> simp_all

theorem mapGet_mapSet_ne (m : AttemptMap) (k k' : String) (v : AttemptRecord)
    (h : k' ≠ k) : mapGet (mapSet m k v) k' = mapGet m k' := by
  simp only [mapSet, mapGet]
  rw [if_neg (fun hh => h hh.symm)]
  exact mapGet_filter_ne m k k' h

theorem mapGet_mapDel_self (m : AttemptMap) (k : String) :
    mapGet (mapDel m k) k = none := by
  induction m with
  | nil => rfl
  | cons hd tl ih =>
      by_cases hk : hd.1 = k
      · simp [mapDel, List.filter, hk] at *
        exact ih
      · simp only [mapDel, List.filter] at *
        have : decide (hd.1 ≠ k) = true := by simp [hk]
        cases hd
        simp_all [mapGet]

theorem mapGet_mapDel_ne (m : AttemptMap) (k k' : String) (h : k' ≠ k) :
    mapGet (mapDel m k) k' = mapGet m k' :=
  mapGet_filter_ne m k k' h

theorem jsCeilDiv1000_pos (a : Int) (h : 0 < a) : 0 < jsCeilDiv1000 a := by
  unfold jsCeilDiv1000
  omega

/-! ## JWT tokens (part_006 lines 57–75, constants/auth.ts) -/

/-- What `jwtDecode` yields on a stored JWT string: a payload with a numeric
`exp` claim (seconds since epoch), or a decode failure (malformed token). -/
inductive Jwt
  | payload (exp : Int)
  | malformed
deriving DecidableEq, Repr

/-- `TOKEN_REFRESH_THRESHOLD_MS` (constants/auth.ts line 8): 10 minutes. -/
def TOKEN_REFRESH_THRESHOLD_MS : Int := 10 * 60 * 1000

/-- `isTokenValid` (part_006 lines 57–65): a missing token and a decode
failure are invalid; otherwise valid iff `exp * 1000 > Date.now()`. -/
def isTokenValid (token : Option Jwt) (now : Int) : Bool :=
  match token with
  | none => false
  | some Jwt.malformed => false
  | some (Jwt.payload exp) => decide (exp * 1000 > now)

/-- `isTokenExpiringSoon` (part_006 lines 67–75): decode failure counts as
expiring; otherwise expiring iff `exp * 1000 - Date.now()` is at most the
refresh threshold. -/
def isTokenExpiringSoon (token : Jwt) (now : Int) : Bool :=
  match token with
  | Jwt.malformed => true
  | Jwt.payload exp => decide (exp * 1000 - now ≤ TOKEN_REFRESH_THRESHOLD_MS)

/-! ## Rate-limiter and token claims -/

/-- Claim C9: for a decodable JWT with numeric `exp` claim, the validity
check is false whenever `exp*1000` is not strictly greater than the current
time; the expiring-soon check is false whenever `exp*1000 - now` strictly
exceeds `TOKEN_REFRESH_THRESHOLD_MS`; and at the exact boundary
`exp*1000 - now = TOKEN_REFRESH_THRESHOLD_MS` the token is classified as
expiring soon (the comparison is inclusive). -/
theorem token_expiry_boundaries (exp now : Int) :
    (exp * 1000 ≤ now → isTokenValid (some (Jwt.payload exp)) now = false) ∧
    (exp * 1000 - now > TOKEN_REFRESH_THRESHOLD_MS →
      isTokenExpiringSoon (Jwt.payload exp) now = false) ∧
    (exp * 1000 - now = TOKEN_REFRESH_THRESHOLD_MS →
      isTokenExpiringSoon (Jwt.payload exp) now = true) := by
  refine ⟨fun h => ?_, fun h => ?_, fun h => ?_⟩ <;>
    simp [isTokenValid, isTokenExpiringSoon, TOKEN_REFRESH_THRESHOLD_MS] at * <;>
    omega

/-- Witness for C9 at concrete inputs: an expired token (`exp*1000 = now`)
is invalid, a token 10⁷ ms away is not expiring soon, and a token exactly
600000 ms away is expiring soon. -/
theorem token_expiry_boundaries_witness :
    isTokenValid (some (Jwt.payload 0)) 0 = false ∧
    isTokenExpiringSoon (Jwt.payload 10000) 0 = false ∧
    isTokenExpiringSoon (Jwt.payload 600) 0 = true :=
  ⟨(token_expiry_boundaries 0 0).1 (by decide),
   (token_expiry_boundaries 10000 0).2.1 (by decide),
   (token_expiry_boundaries 600 0).2.2 (by decide)⟩

/-- Claim C5: once an identifier's record holds `maxAttempts` attempts
within the window (and no active block), the triggering `checkLimit` call
returns denied with a positive `retryAfter`, persists
`blockedUntil = now + blockDurationMs` into the record as a latch, and every
subsequent `checkLimit` call made before `blockDurationMs` has elapsed from
the triggering check is also denied, with no further attempts recorded in
between. -/
theorem checkLimit_block_latch (cfg : RateLimitConfig) (m : AttemptMap)
    (ident : String) (r : AttemptRecord) (now now' : Int)
    (hget : mapGet m ident = some r)
    (hnb : r.blockedUntil = none)
    (hwin : now - r.firstAttemptTime ≤ cfg.windowMs)
    (hcnt : r.count ≥ cfg.maxAttempts)
    (hdur : 0 < cfg.blockDurationMs)
    (hnow : 0 ≤ now) (_hle : now ≤ now') (hlt : now' < now + cfg.blockDurationMs) :
    (checkLimit cfg now m ident).1.isAllowed = false ∧
    (∃ s, (checkLimit cfg now m ident).1.retryAfter = some s ∧ 0 < s) ∧
    mapGet (checkLimit cfg now m ident).2 ident =
      some { r with blockedUntil := some (now + cfg.blockDurationMs) } ∧
    (checkLimit cfg now' (checkLimit cfg now m ident).2 ident).1.isAllowed = false := by
  have hba : blockedActive r now = false := by simp [blockedActive, hnb]
  have hwin' : ¬ (now - r.firstAttemptTime > cfg.windowMs) := by omega
  have hres : checkLimit cfg now m ident =
      ({ isAllowed := false, retryAfter := some (jsCeilDiv1000 cfg.blockDurationMs) },
       mapSet m ident { r with blockedUntil := some (now + cfg.blockDurationMs) }) := by
    simp [checkLimit, hget, hba, hwin', hcnt]
  rw [hres]
  refine ⟨rfl, ⟨jsCeilDiv1000 cfg.blockDurationMs, rfl, jsCeilDiv1000_pos _ hdur⟩, ?_, ?_⟩
  · exact mapGet_mapSet_self m ident _
  · have hba' : blockedActive { r with blockedUntil := some (now + cfg.blockDurationMs) } now'
        = true := by
      simp only [blockedActive, Bool.and_eq_true, decide_eq_true_eq]
      exact ⟨by omega, by omega⟩
    simp [checkLimit, mapGet_mapSet_self, hba']

/-- Witness for C5: with the auth limiter configuration, an identifier
holding 5 attempts started at time 0 is denied at time 0 with a positive
retry hint, latched, and still denied at time 1. -/
theorem checkLimit_block_latch_witness :
    (checkLimit authConfig 0 [("e", ⟨5, 0, none⟩)] "e").1.isAllowed = false ∧
    (∃ s, (checkLimit authConfig 0 [("e", ⟨5, 0, none⟩)] "e").1.retryAfter = some s ∧ 0 < s) ∧
    mapGet (checkLimit authConfig 0 [("e", ⟨5, 0, none⟩)] "e").2 "e" =
      some { count := 5, firstAttemptTime := 0,
             blockedUntil := some (0 + authConfig.blockDurationMs) } ∧
    (checkLimit authConfig 1 (checkLimit authConfig 0 [("e", ⟨5, 0, none⟩)] "e").2 "e").1.isAllowed
      = false :=
  checkLimit_block_latch authConfig [("e", ⟨5, 0, none⟩)] "e" ⟨5, 0, none⟩ 0 1
    (by decide) rfl (by decide) (by decide) (by decide) (by decide) (by decide) (by decide)

/-- Claim C10: when an identifier's record is older than the window,
`recordAttempt` replaces it by a fresh record `{count := 1,
firstAttemptTime := now}` with no `blockedUntil` — even if the old record
held an active lockout — and the next `checkLimit` for that identifier
(at any time, for a limiter configured with more than one allowed attempt,
as both repository instances are) returns allowed. -/
theorem recordAttempt_window_reset (cfg : RateLimitConfig) (m : AttemptMap)
    (ident : String) (r : AttemptRecord) (now : Int)
    (hget : mapGet m ident = some r)
    (hwin : now - r.firstAttemptTime > cfg.windowMs) :
    mapGet (recordAttempt cfg now m ident) ident =
      some { count := 1, firstAttemptTime := now, blockedUntil := none } ∧
    (∀ now', 1 < cfg.maxAttempts →
      (checkLimit cfg now' (recordAttempt cfg now m ident) ident).1.isAllowed = true) := by
  have hrec : recordAttempt cfg now m ident =
      mapSet m ident { count := 1, firstAttemptTime := now, blockedUntil := none } := by
    simp [recordAttempt, hget, hwin]
  rw [hrec]
  refine ⟨mapGet_mapSet_self m ident _, fun now' hmax => ?_⟩
  have hba : blockedActive { count := 1, firstAttemptTime := now, blockedUntil := none } now'
      = false := by simp [blockedActive]
  simp only [checkLimit, mapGet_mapSet_self, hba, Bool.false_eq_true, if_false]
  split
  · rfl
  · rw [if_neg (by omega : ¬ (1 : Int) ≥ cfg.maxAttempts)]

/-- Witness for C10: an identifier blocked far into the future but whose
window (15 min) has elapsed is reset to a fresh unblocked record by a single
`recordAttempt`, and `checkLimit` immediately afterwards allows it. -/
theorem recordAttempt_window_reset_witness :
    mapGet (recordAttempt authConfig 1000000 [("e", ⟨5, 0, some 2000000⟩)] "e") "e" =
      some { count := 1, firstAttemptTime := 1000000, blockedUntil := none } ∧
    (checkLimit authConfig 1000000
      (recordAttempt authConfig 1000000 [("e", ⟨5, 0, some 2000000⟩)] "e") "e").1.isAllowed
      = true :=
  ⟨(recordAttempt_window_reset authConfig [("e", ⟨5, 0, some 2000000⟩)] "e"
      ⟨5, 0, some 2000000⟩ 1000000 (by decide) (by decide)).1,
   (recordAttempt_window_reset authConfig [("e", ⟨5, 0, some 2000000⟩)] "e"
      ⟨5, 0, some 2000000⟩ 1000000 (by decide) (by decide)).2 1000000 (by decide)⟩

/-! ## Auth store data model (part_006) -/

/-- Cached user record (`User` of types/auth, stored wholesale). -/
structure User where
  username : String
  email : String
deriving DecidableEq, Repr

/-- The three persisted localStorage entries managed by the `storage`
helper of part_006 (lines 29–55). -/
structure Storage where
  access : Option Jwt
  refresh : Option Jwt
  user : Option User
deriving DecidableEq, Repr

/-- `storage.setTokens` (part_006 lines 43–46). -/
def setTokens (sto : Storage) (a r : Jwt) : Storage :=
  { sto with access := some a, refresh := some r }

/-- `storage.setUser` (part_006 lines 47–49). -/
def setUser (sto : Storage) (u : User) : Storage := { sto with user := some u }

/-- `storage.clear` (part_006 lines 50–54): all three keys removed. -/
def clearedStorage : Storage := { access := none, refresh := none, user := none }

/-- The zustand `AuthState` (part_006 lines 81–85). -/
structure AuthState where
  isLogged : Bool
  isLoading : Bool
  confirmEmailToken : Option String
deriving DecidableEq, Repr

/-- The shared mutable state an auth operation can read or write: the
zustand auth state, the persisted storage, and the `authRateLimiter`'s
attempts map. -/
structure World where
  auth : AuthState
  sto : Storage
  rl : AttemptMap
deriving DecidableEq, Repr

/-- Network requests an operation can issue. -/
inductive NetCall
  | loginReq
  | logoutReq
  | refreshReq (refresh : Jwt)
  | resendReq (token : String)
  | signupReq
  | confirmReq (code : String)
  | resetReq
  | resetConfirmReq
  | changePwReq
  | dispatch (url : String)
deriving DecidableEq, Repr

/-- Observable events of an operation, in program order: a network request,
the auth-state snapshot right after a zustand `set` call, or entry into the
`resendConfirmationEmail` flow. -/
inductive Event
  | net (c : NetCall)
  | snap (s : AuthState)
  | resendFlow (token : String)
deriving DecidableEq, Repr

/-- JS truthiness of an optional string (`undefined` and `""` are falsy). -/
def truthyStr : Option String → Bool
  | none => false
  | some s => decide (s ≠ "")

/-- `xs?.[0]`: first element of an optional array. -/
def firstElem : Option (List String) → Option String
  | none => none
  | some l => l.head?

/-- JS `a || b` on optional strings: `b` whenever `a` is falsy. -/
def jsOrStr (a b : Option String) : Option String :=
  if truthyStr a then a else b

/-! ## Auth store operations (part_006) -/

/-- `logOut` (part_006 lines 182–194): sets loading, attempts the server
logout (a failure there is only logged), always clears storage and resets
the session flags.  `serverOk` is the outcome of the server call. -/
def logOutOp (serverOk : Bool) (w : World) : World × List Event :=
  let _ := serverOk
  let a1 := { w.auth with isLoading := true }
  let a2 : AuthState := { isLogged := false, isLoading := false, confirmEmailToken := none }
  (⟨a2, clearedStorage, w.rl⟩,
   [Event.snap a1, Event.net NetCall.logoutReq, Event.snap a2])

/-- Outcome of the token-refresh endpoint call. -/
inductive RefreshOutcome
  | ok (access : Jwt) (refresh : Jwt)
  | fail
deriving DecidableEq, Repr

/-- `getAccessToken` (part_006 lines 196–225).  `refreshOutcome` is what the
refresh endpoint would reply, `logoutOk` the outcome of the server logout
call a forced logout performs. -/
def getAccessTokenOp (now : Int) (refreshOutcome : RefreshOutcome)
    (logoutOk : Bool) (w : World) : Option Jwt × World × List Event :=
  match w.sto.access with
  | none => (none, w, [])
  | some access =>
      if isTokenExpiringSoon access now then
        match w.sto.refresh with
        | none =>
            let (w2, tr) := logOutOp logoutOk w
            (none, w2, tr)
        | some refreshTok =>
            match refreshOutcome with
            | RefreshOutcome.ok acc ref =>
                (some acc, { w with sto := setTokens w.sto acc ref },
                 [Event.net (NetCall.refreshReq refreshTok)])
            | RefreshOutcome.fail =>
                let (w2, tr) := logOutOp logoutOk w
                (none, w2, Event.net (NetCall.refreshReq refreshTok) :: tr)
      else
        (some access, w, [])

/-- Result type of `resendConfirmationEmail`. -/
inductive ResendResult
  | sent
  | in_progress
  | error
deriving DecidableEq, Repr

/-- Outcome of the resend-confirmation endpoint call: a 2xx body with its
optional `Status` and `code` fields, or a rejection. -/
inductive ResendOutcome
  | ok (status : Option Bool) (code : Option String)
  | netFail
deriving DecidableEq, Repr

/-- The synthetic rate-limit identifier used by `resendConfirmationEmail`. -/
def resendKey (token : String) : String := "resend:" ++ token

/-- `resendConfirmationEmail` (part_006 lines 258–291): rate-limited under
`resend:<token>`; a truthy `Status` is a successful send (attempt recorded),
the known in-progress `code` is distinguished (no attempt recorded), any
other body or a network failure is a generic failure (attempt recorded).
Never touches `isLoading`. -/
def resendOp (now : Int) (outcome : ResendOutcome) (token : String) (w : World) :
    ResendResult × World × List Event :=
  let check := (checkLimit authConfig now w.rl (resendKey token)).1
  let rl1 := (checkLimit authConfig now w.rl (resendKey token)).2
  let w1 := { w with rl := rl1 }
  if check.isAllowed then
    match outcome with
    | ResendOutcome.netFail =>
        (ResendResult.error,
         { w1 with rl := recordAttempt authConfig now w1.rl (resendKey token) },
         [Event.resendFlow token, Event.net (NetCall.resendReq token)])
    | ResendOutcome.ok status code =>
        if status = some true then
          (ResendResult.sent,
           { w1 with rl := recordAttempt authConfig now w1.rl (resendKey token) },
           [Event.resendFlow token, Event.net (NetCall.resendReq token)])
        else if code = some "Email confirmation in progress" then
          (ResendResult.in_progress, w1,
           [Event.resendFlow token, Event.net (NetCall.resendReq token)])
        else
          (ResendResult.error,
           { w1 with rl := recordAttempt authConfig now w1.rl (resendKey token) },
           [Event.resendFlow token, Event.net (NetCall.resendReq token)])
  else
    (ResendResult.error, w1, [Event.resendFlow token])

/-- `AuthResult` tag set returned by `logIn`. -/
inductive AuthResult
  | success
  | confirm_email
  | go2fa
  | otp_fail
  | wrong_data
  | reset_psw
  | account_block
  | invalid
  | error
deriving DecidableEq, Repr

/-- `LoginRequest`: `{email, password, googlecode?}`. -/
structure LoginRequest where
  email : String
  password : String
  googlecode : Option String
deriving DecidableEq, Repr

/-- The fields of `LoginErrorResponse` that `logIn` inspects. -/
structure LoginErrorData where
  token : Option (List String)
  type : Option (List String)
  message : Option (List String)
deriving DecidableEq, Repr

/-- A successful login body `{access, refresh, user}`. -/
structure LoginSuccess where
  access : Jwt
  refresh : Jwt
  user : User
deriving DecidableEq, Repr

/-- Outcome of the login endpoint call: a success body, or a rejection
whose `error.response.data` is `payload` (`none` when there was no
response data at all). -/
inductive LoginOutcome
  | ok (d : LoginSuccess)
  | err (payload : Option LoginErrorData)
deriving DecidableEq, Repr

/-- The known error-type strings of part_006 line 170, mapped to their
`AuthResult` tags (`knownErrors.includes` on anything else is false). -/
def knownErrorTag : String → Option AuthResult
  | "wrong_data" => some AuthResult.wrong_data
  | "reset_psw" => some AuthResult.reset_psw
  | "account_block" => some AuthResult.account_block
  | "invalid" => some AuthResult.invalid
  | _ => none

/-- `logIn` (part_006 lines 114–180).  `outcome` is the login endpoint's
reply; `resendOutcome` the resend endpoint's reply, consumed only by the
unconfirmed-email branch's nested `resendConfirmationEmail` call. -/
def logInOp (now : Int) (outcome : LoginOutcome) (resendOutcome : ResendOutcome)
    (cred : LoginRequest) (w : World) : AuthResult × World × List Event :=
  let check := (checkLimit authConfig now w.rl cred.email).1
  let w1 := { w with rl := (checkLimit authConfig now w.rl cred.email).2 }
  if check.isAllowed then
    let a1 := { w1.auth with isLoading := true }
    let w2 := { w1 with auth := a1 }
    let e0 := [Event.snap a1, Event.net NetCall.loginReq]
    match outcome with
    | LoginOutcome.ok d =>
        let a2 : AuthState :=
          { isLogged := true, isLoading := false, confirmEmailToken := none }
        (AuthResult.success,
         ⟨a2, setUser (setTokens w2.sto d.access d.refresh) d.user,
          rlReset w2.rl cred.email⟩,
         e0 ++ [Event.snap a2])
    | LoginOutcome.err payload =>
        let w3 := { w2 with rl := recordAttempt authConfig now w2.rl cred.email }
        if truthyStr cred.googlecode then
          let a2 := { w3.auth with isLoading := false }
          (AuthResult.otp_fail, { w3 with auth := a2 }, e0 ++ [Event.snap a2])
        else
          match payload with
          | none =>
              let a2 := { w3.auth with isLoading := false }
              (AuthResult.error, { w3 with auth := a2 }, e0 ++ [Event.snap a2])
          | some d =>
              if truthyStr (firstElem d.token) then
                let tok := (firstElem d.token).getD ""
                let a2 := { w3.auth with confirmEmailToken := some tok }
                let w4 := { w3 with auth := a2 }
                let sentRes := (resendOp now resendOutcome tok w4).1
                let w5 := (resendOp now resendOutcome tok w4).2.1
                let tr5 := (resendOp now resendOutcome tok w4).2.2
                let a3 := { w5.auth with isLoading := false }
                ((if sentRes = ResendResult.error then AuthResult.error
                  else AuthResult.confirm_email),
                 { w5 with auth := a3 },
                 e0 ++ [Event.snap a2] ++ tr5 ++ [Event.snap a3])
              else
                let errorType := jsOrStr (firstElem d.type) (firstElem d.message)
                if errorType = some "two_fa_failed" then
                  let a2 := { w3.auth with isLoading := false }
                  (AuthResult.go2fa, { w3 with auth := a2 }, e0 ++ [Event.snap a2])
                else
                  match errorType.bind knownErrorTag with
                  | some tag =>
                      let a2 := { w3.auth with isLoading := false }
                      (tag, { w3 with auth := a2 }, e0 ++ [Event.snap a2])
                  | none =>
                      let a2 := { w3.auth with isLoading := false }
                      (AuthResult.error, { w3 with auth := a2 }, e0 ++ [Event.snap a2])
  else
    (AuthResult.error, w1, [])

/-- `SignupRequest` fields `register` inspects. -/
structure SignupRequest where
  email : String
  password1 : String
  password2 : String
deriving DecidableEq, Repr

/-- Outcome of the signup endpoint call (the three error shapes only pick
the toast message; the boolean result is false for all of them). -/
inductive RegisterOutcome
  | ok
  | errEmail
  | errNonField
  | errOther
deriving DecidableEq, Repr

/-- `register` (part_006 lines 233–256): aborts without a network call on a
password mismatch; otherwise one signup call, result `true` iff it
succeeded, with `isLoading` managed in a `finally`. -/
def registerOp (outcome : RegisterOutcome) (d : SignupRequest) (w : World) :
    Bool × World × List Event :=
  if d.password1 ≠ d.password2 then
    (false, w, [])
  else
    let a1 := { w.auth with isLoading := true }
    let a2 := { a1 with isLoading := false }
    ((match outcome with | RegisterOutcome.ok => true | _ => false),
     { w with auth := a2 },
     [Event.snap a1, Event.net NetCall.signupReq, Event.snap a2])

/-- The synthetic rate-limit identifier used by `confirmEmail`. -/
def verifyKey (code : String) : String := "verify:" ++ code

/-- The fields of the confirm-email response body that `confirmEmail`
inspects (string truthiness of the tokens is modelled as presence). -/
structure ConfirmBody where
  access : Option Jwt
  refresh : Option Jwt
  user : Option User
deriving DecidableEq, Repr

/-- Outcome of the confirm-email endpoint call. -/
inductive ConfirmOutcome
  | ok (body : ConfirmBody)
  | netFail
deriving DecidableEq, Repr

/-- `confirmEmail` (part_006 lines 293–341): rate-limited under
`verify:<code>`; on success resets that entry and clears
`confirmEmailToken`, persisting tokens (and user, if present) and logging
in when the body carries both tokens; on rejection records an attempt. -/
def confirmEmailOp (now : Int) (outcome : ConfirmOutcome) (code : String)
    (w : World) : Bool × World × List Event :=
  let check := (checkLimit authConfig now w.rl (verifyKey code)).1
  let w1 := { w with rl := (checkLimit authConfig now w.rl (verifyKey code)).2 }
  if check.isAllowed then
    let a1 := { w1.auth with isLoading := true }
    match outcome with
    | ConfirmOutcome.ok body =>
        let rl2 := rlReset w1.rl (verifyKey code)
        let a2 := { a1 with confirmEmailToken := none }
        match body.access, body.refresh with
        | some acc, some ref =>
            let sto2 := setTokens w1.sto acc ref
            let sto3 := match body.user with
              | some u => setUser sto2 u
              | none => sto2
            let a3 := { a2 with isLogged := true, isLoading := false }
            (true, ⟨a3, sto3, rl2⟩,
             [Event.snap a1, Event.net (NetCall.confirmReq code), Event.snap a2,
              Event.snap a3, Event.snap a3])
        | _, _ =>
            let a3 := { a2 with isLoading := false }
            (true, ⟨a3, w1.sto, rl2⟩,
             [Event.snap a1, Event.net (NetCall.confirmReq code), Event.snap a2,
              Event.snap a3])
    | ConfirmOutcome.netFail =>
        let rl2 := recordAttempt authConfig now w1.rl (verifyKey code)
        let a2 := { a1 with isLoading := false }
        (false, ⟨a2, w1.sto, rl2⟩,
         [Event.snap a1, Event.net (NetCall.confirmReq code), Event.snap a2])
  else
    (false, w1, [])

/-- `requestPasswordReset` (part_006 lines 347–363): one network call,
`true` iff it succeeded, `isLoading` managed in a `finally`. -/
def requestPasswordResetOp (serverOk : Bool) (w : World) : Bool × World × List Event :=
  let a1 := { w.auth with isLoading := true }
  let a2 := { a1 with isLoading := false }
  (serverOk, { w with auth := a2 },
   [Event.snap a1, Event.net NetCall.resetReq, Event.snap a2])

/-- `resetPassword` (part_006 lines 365–384): one network call, `true` iff
it succeeded, `isLoading` managed in a `finally`. -/
def resetPasswordOp (serverOk : Bool) (w : World) : Bool × World × List Event :=
  let a1 := { w.auth with isLoading := true }
  let a2 := { a1 with isLoading := false }
  (serverOk, { w with auth := a2 },
   [Event.snap a1, Event.net NetCall.resetConfirmReq, Event.snap a2])

/-- `changePassword` (part_006 lines 386–401): one network call, `true` iff
it succeeded, `isLoading` managed in a `finally`. -/
def changePasswordOp (serverOk : Bool) (w : World) : Bool × World × List Event :=
  let a1 := { w.auth with isLoading := true }
  let a2 := { a1 with isLoading := false }
  (serverOk, { w with auth := a2 },
   [Event.snap a1, Event.net NetCall.changePwReq, Event.snap a2])

/-! ## HTTP response interceptor (`src/lib/axios.ts`, constants) -/

/-- `API_ROUTES.refresh`. -/
def refreshRoute : String := "/auth/token/refresh/"

/-- `API_ROUTES.profile` (requires auth). -/
def profileRoute : String := "/api/auth/profile/"

/-- `NO_AUTH_REQUIRED_API_ROUTES` (part_012 lines 35–43). -/
def NO_AUTH_REQUIRED_API_ROUTES : List String :=
  ["/auth/login/", "/auth/token/refresh/", "/auth/registration/",
   "/resend-email-confirmation/", "/auth/registration/account-confirm-email/",
   "/auth/password/reset/", "/auth/password/reset/confirm/"]

/-- `LOGOUT_ERROR_CODES` (constants/auth.ts line 10). -/
def LOGOUT_ERROR_CODES : List String :=
  ["user_not_found", "user_inactive", "token_not_valid"]

/-- The error response the interceptor inspects: HTTP status and the server
error code `response.data?.code?.message || ''`. -/
structure ErrResponse where
  status : Int
  code : String
deriving DecidableEq, Repr

/-- What the response interceptor's error handler decides: propagate the
rejection, or resubmit the original request with a new bearer token. -/
inductive InterceptorAction
  | reject
  | retry (newToken : Jwt)
deriving DecidableEq, Repr

/-- The response interceptor's error handler (axios.ts lines 43–90).
`resp = none` models an error without a response object.  On a 401 whose
code is in the logout set it forces logout and rejects; otherwise, if the
URL is neither allow-listed nor the refresh route, it calls
`getAccessToken` once and resubmits with the token obtained, or rejects if
none was. -/
def respOnError (now : Int) (ro : RefreshOutcome) (lo : Bool)
    (resp : Option ErrResponse) (url : String) (w : World) :
    InterceptorAction × World × List Event :=
  match resp with
  | none => (InterceptorAction.reject, w, [])
  | some r =>
      if r.status = 503 then (InterceptorAction.reject, w, [])
      else if r.status = 401 then
        if r.code ∈ LOGOUT_ERROR_CODES then
          let (w2, tr) := logOutOp lo w
          (InterceptorAction.reject, w2, tr)
        else if url ∉ NO_AUTH_REQUIRED_API_ROUTES ∧ url ≠ refreshRoute then
          match getAccessTokenOp now ro lo w with
          | (some t, w2, tr) => (InterceptorAction.retry t, w2, tr)
          | (none, w2, tr) => (InterceptorAction.reject, w2, tr)
        else (InterceptorAction.reject, w, [])
      else (InterceptorAction.reject, w, [])

/-- What the server replies to the `attempt`-th dispatch of a request. -/
inductive ServerReply
  | ok
  | errResp (status : Int) (code : String)
  | down
deriving DecidableEq, Repr

/-- Final fate of a request sent through the intercepted client. -/
inductive ReqResult
  | success
  | rejected
  | exhausted
deriving DecidableEq, Repr

/-- A request cycle through the intercepted client: dispatch, and on an
error response run the response interceptor; a retry directive dispatches
the original request again (`fuel` bounds the observation length — the code
itself carries no retry flag that would bound the chain). -/
def runRequest (server : Nat → ServerReply) (now : Int) (ro : RefreshOutcome)
    (lo : Bool) (url : String) :
    Nat → Nat → World → ReqResult × World × List Event
  | 0, _, w => (ReqResult.exhausted, w, [])
  | fuel + 1, attempt, w =>
      match server attempt with
      | ServerReply.ok => (ReqResult.success, w, [Event.net (NetCall.dispatch url)])
      | ServerReply.down =>
          let h := respOnError now ro lo none url w
          (ReqResult.rejected, h.2.1, Event.net (NetCall.dispatch url) :: h.2.2)
      | ServerReply.errResp status code =>
          let h := respOnError now ro lo (some ⟨status, code⟩) url w
          match h.1 with
          | InterceptorAction.reject =>
              (ReqResult.rejected, h.2.1, Event.net (NetCall.dispatch url) :: h.2.2)
          | InterceptorAction.retry _ =>
              let rest := runRequest server now ro lo url fuel (attempt + 1) h.2.1
              (rest.1, rest.2.1,
               Event.net (NetCall.dispatch url) :: (h.2.2 ++ rest.2.2))

/-- Recognizes a refresh-endpoint network call in a trace. -/
def isRefreshEvent : Event → Bool
  | Event.net (NetCall.refreshReq _) => true
  | _ => false

/-- Number of times a request to `url` was dispatched in a trace. -/
def dispatchCount (tr : List Event) (url : String) : Nat :=
  tr.countP (fun e => decide (e = Event.net (NetCall.dispatch url)))

/-- Recognizes entry into the `resendConfirmationEmail` flow for `t`. -/
def isResendFlowFor (t : String) : Event → Bool
  | Event.resendFlow t' => t' == t
  | _ => false

/-! ## Shared helper lemmas -/

/-- A fresh world used by concrete witnesses and counterexamples. -/
def emptyWorld : World := ⟨⟨false, false, none⟩, ⟨none, none, none⟩, []⟩

theorem checkLimit_mapGet_ne (cfg : RateLimitConfig) (now : Int) (m : AttemptMap)
    (ident k : String) (h : k ≠ ident) :
    mapGet (checkLimit cfg now m ident).2 k = mapGet m k := by
  unfold checkLimit
  cases mapGet m ident with
  | none => rfl
  | some record =>
      dsimp only
      split
      · rfl
      · split
        · exact mapGet_mapDel_ne m ident k h
        · split
          · exact mapGet_mapSet_ne m ident k _ h
          · rfl

theorem recordAttempt_mapGet_ne (cfg : RateLimitConfig) (now : Int) (m : AttemptMap)
    (ident k : String) (h : k ≠ ident) :
    mapGet (recordAttempt cfg now m ident) k = mapGet m k := by
  unfold recordAttempt
  cases mapGet m ident with
  | none => exact mapGet_mapSet_ne m ident k _ h
  | some record =>
      dsimp only
      split
      · exact mapGet_mapSet_ne m ident k _ h
      · exact mapGet_mapSet_ne m ident k _ h

theorem resendOp_preserves (now : Int) (outcome : ResendOutcome) (token : String)
    (w : World) :
    (resendOp now outcome token w).2.1.auth = w.auth ∧
    (resendOp now outcome token w).2.1.sto = w.sto := by
  by_cases hc : (checkLimit authConfig now w.rl (resendKey token)).1.isAllowed
  · cases outcome with
    | netFail => simp [resendOp, hc]
    | ok status code =>
        by_cases hs : status = some true
        · simp [resendOp, hc, hs]
        · by_cases hcode : code = some "Email confirmation in progress"
          · simp [resendOp, hc, hs, hcode]
          · simp [resendOp, hc, hs, hcode]
  · cases outcome <;> simp [resendOp, hc]

theorem resendOp_trace_shape (now : Int) (outcome : ResendOutcome) (token : String)
    (w : World) :
    (resendOp now outcome token w).2.2 = [Event.resendFlow token] ∨
    (resendOp now outcome token w).2.2 =
      [Event.resendFlow token, Event.net (NetCall.resendReq token)] := by
  by_cases hc : (checkLimit authConfig now w.rl (resendKey token)).1.isAllowed
  · refine Or.inr ?_
    cases outcome with
    | netFail => simp [resendOp, hc]
    | ok status code =>
        by_cases hs : status = some true
        · simp [resendOp, hc, hs]
        · by_cases hcode : code = some "Email confirmation in progress"
          · simp [resendOp, hc, hs, hcode]
          · simp [resendOp, hc, hs, hcode]
  · refine Or.inl ?_
    cases outcome <;> simp [resendOp, hc]

/-! ## Auth store claims -/

/-- Claim C6: `logOut`, whether the server-side logout call succeeds or
rejects, always clears all three persisted storage keys and ends with
`isLogged = false` and `confirmEmailToken = none`; the network outcome
never changes the result (and the operation is a total function, so no
exception escapes). -/
theorem logOut_always_cleans (serverOk : Bool) (w : World) :
    (logOutOp serverOk w).1.sto = clearedStorage ∧
    (logOutOp serverOk w).1.auth.isLogged = false ∧
    (logOutOp serverOk w).1.auth.confirmEmailToken = none ∧
    logOutOp serverOk w = logOutOp true w := by
  simp [logOutOp]

/-- Claim C4: a `logIn` call whose rate-limit check for the email passes
and whose login request succeeds with `{access, refresh, user}` leaves the
rate limiter without an entry for that email, persists exactly that access
token, refresh token and user record, sets `isLogged = true`, clears any
stale `confirmEmailToken` (and the loading flag), and returns `'success'`. -/
theorem logIn_success_effects (now : Int) (d : LoginSuccess) (ro : ResendOutcome)
    (cred : LoginRequest) (w : World)
    (hallow : (checkLimit authConfig now w.rl cred.email).1.isAllowed = true) :
    (logInOp now (LoginOutcome.ok d) ro cred w).1 = AuthResult.success ∧
    mapGet (logInOp now (LoginOutcome.ok d) ro cred w).2.1.rl cred.email = none ∧
    (logInOp now (LoginOutcome.ok d) ro cred w).2.1.sto =
      { access := some d.access, refresh := some d.refresh, user := some d.user } ∧
    (logInOp now (LoginOutcome.ok d) ro cred w).2.1.auth =
      { isLogged := true, isLoading := false, confirmEmailToken := none } := by
  simp [logInOp, hallow, rlReset, setTokens, setUser, mapGet_mapDel_self]

/-- Witness for C4: a concrete successful login from a fresh world. -/
theorem logIn_success_effects_witness :
    (logInOp 0 (LoginOutcome.ok ⟨Jwt.payload 7, Jwt.payload 9, ⟨"u", "e@x.com"⟩⟩)
        (ResendOutcome.netFail) ⟨"e@x.com", "pw", none⟩ emptyWorld).1
      = AuthResult.success ∧
    mapGet (logInOp 0 (LoginOutcome.ok ⟨Jwt.payload 7, Jwt.payload 9, ⟨"u", "e@x.com"⟩⟩)
        (ResendOutcome.netFail) ⟨"e@x.com", "pw", none⟩ emptyWorld).2.1.rl "e@x.com" = none ∧
    (logInOp 0 (LoginOutcome.ok ⟨Jwt.payload 7, Jwt.payload 9, ⟨"u", "e@x.com"⟩⟩)
        (ResendOutcome.netFail) ⟨"e@x.com", "pw", none⟩ emptyWorld).2.1.sto =
      { access := some (Jwt.payload 7), refresh := some (Jwt.payload 9),
        user := some ⟨"u", "e@x.com"⟩ } ∧
    (logInOp 0 (LoginOutcome.ok ⟨Jwt.payload 7, Jwt.payload 9, ⟨"u", "e@x.com"⟩⟩)
        (ResendOutcome.netFail) ⟨"e@x.com", "pw", none⟩ emptyWorld).2.1.auth =
      { isLogged := true, isLoading := false, confirmEmailToken := none } :=
  logIn_success_effects 0 ⟨Jwt.payload 7, Jwt.payload 9, ⟨"u", "e@x.com"⟩⟩
    ResendOutcome.netFail ⟨"e@x.com", "pw", none⟩ emptyWorld (by decide)

/-- Claim C1: the case split of `getAccessToken`.  No stored access token
ends with `undefined` and an untouched world; a token not expiring soon is
returned unchanged; an expiring token without a refresh token forces logout
(storage cleared, `isLogged = false`) and yields `undefined`; otherwise the
refresh endpoint is called with the stored refresh token and, on success,
the returned pair is persisted and its access token returned, while on
refresh failure a forced logout occurs (`isLogged` ends false) and
`undefined` is returned. -/
theorem getAccessToken_cases (now : Int) (ro : RefreshOutcome) (lo : Bool)
    (w : World) :
    (w.sto.access = none → getAccessTokenOp now ro lo w = (none, w, [])) ∧
    (∀ a, w.sto.access = some a → isTokenExpiringSoon a now = false →
      getAccessTokenOp now ro lo w = (some a, w, [])) ∧
    (∀ a, w.sto.access = some a → isTokenExpiringSoon a now = true →
      w.sto.refresh = none →
      (getAccessTokenOp now ro lo w).1 = none ∧
      (getAccessTokenOp now ro lo w).2.1.auth.isLogged = false ∧
      (getAccessTokenOp now ro lo w).2.1.sto = clearedStorage) ∧
    (∀ a rt acc ref, w.sto.access = some a → isTokenExpiringSoon a now = true →
      w.sto.refresh = some rt → ro = RefreshOutcome.ok acc ref →
      (getAccessTokenOp now ro lo w).1 = some acc ∧
      (getAccessTokenOp now ro lo w).2.1 = { w with sto := setTokens w.sto acc ref } ∧
      Event.net (NetCall.refreshReq rt) ∈ (getAccessTokenOp now ro lo w).2.2) ∧
    (∀ a rt, w.sto.access = some a → isTokenExpiringSoon a now = true →
      w.sto.refresh = some rt → ro = RefreshOutcome.fail →
      (getAccessTokenOp now ro lo w).1 = none ∧
      (getAccessTokenOp now ro lo w).2.1.auth.isLogged = false ∧
      (getAccessTokenOp now ro lo w).2.1.sto = clearedStorage ∧
      Event.net (NetCall.refreshReq rt) ∈ (getAccessTokenOp now ro lo w).2.2) := by
  refine ⟨fun ha => ?_, fun a ha hexp => ?_, fun a ha hexp hrt => ?_,
    fun a rt acc ref ha hexp hrt hro => ?_, fun a rt ha hexp hrt hro => ?_⟩
  · simp [getAccessTokenOp, ha]
  · simp [getAccessTokenOp, ha, hexp]
  · simp [getAccessTokenOp, ha, hexp, hrt, logOutOp, clearedStorage]
  · subst hro
    simp [getAccessTokenOp, ha, hexp, hrt]
  · subst hro
    simp [getAccessTokenOp, ha, hexp, hrt, logOutOp, clearedStorage]

/-- Witness for C1, exercising all five cases at concrete inputs: an empty
storage, a far-future token, an expiring token without refresh token, and
an expiring token with a refresh token whose refresh succeeds or fails. -/
theorem getAccessToken_cases_witness :
    getAccessTokenOp 0 RefreshOutcome.fail true emptyWorld = (none, emptyWorld, []) ∧
    getAccessTokenOp 0 RefreshOutcome.fail true
        ⟨⟨true, false, none⟩, ⟨some (Jwt.payload 1000000), none, none⟩, []⟩ =
      (some (Jwt.payload 1000000),
       ⟨⟨true, false, none⟩, ⟨some (Jwt.payload 1000000), none, none⟩, []⟩, []) ∧
    ((getAccessTokenOp 0 RefreshOutcome.fail true
        ⟨⟨true, false, none⟩, ⟨some (Jwt.payload 0), none, none⟩, []⟩).1 = none ∧
     (getAccessTokenOp 0 RefreshOutcome.fail true
        ⟨⟨true, false, none⟩, ⟨some (Jwt.payload 0), none, none⟩, []⟩).2.1.auth.isLogged
        = false ∧
     (getAccessTokenOp 0 RefreshOutcome.fail true
        ⟨⟨true, false, none⟩, ⟨some (Jwt.payload 0), none, none⟩, []⟩).2.1.sto
        = clearedStorage) ∧
    ((getAccessTokenOp 0 (RefreshOutcome.ok (Jwt.payload 7) (Jwt.payload 9)) true
        ⟨⟨true, false, none⟩, ⟨some (Jwt.payload 0), some (Jwt.payload 5), none⟩, []⟩).1
        = some (Jwt.payload 7) ∧
     Event.net (NetCall.refreshReq (Jwt.payload 5)) ∈
       (getAccessTokenOp 0 (RefreshOutcome.ok (Jwt.payload 7) (Jwt.payload 9)) true
        ⟨⟨true, false, none⟩, ⟨some (Jwt.payload 0), some (Jwt.payload 5), none⟩, []⟩).2.2) ∧
    ((getAccessTokenOp 0 RefreshOutcome.fail true
        ⟨⟨true, false, none⟩, ⟨some (Jwt.payload 0), some (Jwt.payload 5), none⟩, []⟩).1
        = none ∧
     (getAccessTokenOp 0 RefreshOutcome.fail true
        ⟨⟨true, false, none⟩, ⟨some (Jwt.payload 0), some (Jwt.payload 5), none⟩, []⟩).2.1.auth.isLogged
        = false) :=
  ⟨(getAccessToken_cases 0 RefreshOutcome.fail true emptyWorld).1 rfl,
   (getAccessToken_cases 0 RefreshOutcome.fail true
      ⟨⟨true, false, none⟩, ⟨some (Jwt.payload 1000000), none, none⟩, []⟩).2.1
      (Jwt.payload 1000000) rfl (by decide),
   ⟨((getAccessToken_cases 0 RefreshOutcome.fail true
      ⟨⟨true, false, none⟩, ⟨some (Jwt.payload 0), none, none⟩, []⟩).2.2.1
      (Jwt.payload 0) rfl (by decide) rfl).1,
    ((getAccessToken_cases 0 RefreshOutcome.fail true
      ⟨⟨true, false, none⟩, ⟨some (Jwt.payload 0), none, none⟩, []⟩).2.2.1
      (Jwt.payload 0) rfl (by decide) rfl).2.1,
    ((getAccessToken_cases 0 RefreshOutcome.fail true
      ⟨⟨true, false, none⟩, ⟨some (Jwt.payload 0), none, none⟩, []⟩).2.2.1
      (Jwt.payload 0) rfl (by decide) rfl).2.2⟩,
   ⟨((getAccessToken_cases 0 (RefreshOutcome.ok (Jwt.payload 7) (Jwt.payload 9)) true
      ⟨⟨true, false, none⟩, ⟨some (Jwt.payload 0), some (Jwt.payload 5), none⟩, []⟩).2.2.2.1
      (Jwt.payload 0) (Jwt.payload 5) (Jwt.payload 7) (Jwt.payload 9)
      rfl (by decide) rfl rfl).1,
    ((getAccessToken_cases 0 (RefreshOutcome.ok (Jwt.payload 7) (Jwt.payload 9)) true
      ⟨⟨true, false, none⟩, ⟨some (Jwt.payload 0), some (Jwt.payload 5), none⟩, []⟩).2.2.2.1
      (Jwt.payload 0) (Jwt.payload 5) (Jwt.payload 7) (Jwt.payload 9)
      rfl (by decide) rfl rfl).2.2⟩,
   ⟨((getAccessToken_cases 0 RefreshOutcome.fail true
      ⟨⟨true, false, none⟩, ⟨some (Jwt.payload 0), some (Jwt.payload 5), none⟩, []⟩).2.2.2.2
      (Jwt.payload 0) (Jwt.payload 5) rfl (by decide) rfl rfl).1,
    ((getAccessToken_cases 0 RefreshOutcome.fail true
      ⟨⟨true, false, none⟩, ⟨some (Jwt.payload 0), some (Jwt.payload 5), none⟩, []⟩).2.2.2.2
      (Jwt.payload 0) (Jwt.payload 5) rfl (by decide) rfl rfl).2.1⟩⟩

/-- Claim C8: a `resendConfirmationEmail(token)` call that passes its
rate-limit check returns exactly one of `'sent'`, `'in_progress'` or
`'error'`, touches the rate limiter only under the synthetic key
`resend:<token>` (and nothing else in the world), and records an attempt
under that key exactly when the result is `'sent'` or `'error'` — never
when it is `'in_progress'`. -/
theorem resend_rate_bookkeeping (now : Int) (outcome : ResendOutcome)
    (token : String) (w : World)
    (hallow : (checkLimit authConfig now w.rl (resendKey token)).1.isAllowed = true) :
    ((resendOp now outcome token w).1 = ResendResult.sent ∨
     (resendOp now outcome token w).1 = ResendResult.in_progress ∨
     (resendOp now outcome token w).1 = ResendResult.error) ∧
    (resendOp now outcome token w).2.1.auth = w.auth ∧
    (resendOp now outcome token w).2.1.sto = w.sto ∧
    (∀ k, k ≠ resendKey token →
      mapGet (resendOp now outcome token w).2.1.rl k = mapGet w.rl k) ∧
    (resendOp now outcome token w).2.1.rl =
      (if (resendOp now outcome token w).1 = ResendResult.in_progress
       then (checkLimit authConfig now w.rl (resendKey token)).2
       else recordAttempt authConfig now
              (checkLimit authConfig now w.rl (resendKey token)).2 (resendKey token)) := by
  have hne : ∀ k, k ≠ resendKey token →
      mapGet (recordAttempt authConfig now
        (checkLimit authConfig now w.rl (resendKey token)).2 (resendKey token)) k
      = mapGet w.rl k := by
    intro k hk
    rw [recordAttempt_mapGet_ne _ _ _ _ _ hk, checkLimit_mapGet_ne _ _ _ _ _ hk]
  have hne2 : ∀ k, k ≠ resendKey token →
      mapGet (checkLimit authConfig now w.rl (resendKey token)).2 k = mapGet w.rl k :=
    fun k hk => checkLimit_mapGet_ne _ _ _ _ _ hk
  cases outcome with
  | netFail =>
      have hR : resendOp now ResendOutcome.netFail token w =
          (ResendResult.error,
           ⟨w.auth, w.sto, recordAttempt authConfig now
              (checkLimit authConfig now w.rl (resendKey token)).2 (resendKey token)⟩,
           [Event.resendFlow token, Event.net (NetCall.resendReq token)]) := by
        simp [resendOp, hallow]
      rw [hR]
      exact ⟨Or.inr (Or.inr rfl), rfl, rfl, hne, by simp⟩
  | ok status code =>
      by_cases hs : status = some true
      · have hR : resendOp now (ResendOutcome.ok status code) token w =
            (ResendResult.sent,
             ⟨w.auth, w.sto, recordAttempt authConfig now
                (checkLimit authConfig now w.rl (resendKey token)).2 (resendKey token)⟩,
             [Event.resendFlow token, Event.net (NetCall.resendReq token)]) := by
          simp [resendOp, hallow, hs]
        rw [hR]
        exact ⟨Or.inl rfl, rfl, rfl, hne, by simp⟩
      · by_cases hcode : code = some "Email confirmation in progress"
        · have hR : resendOp now (ResendOutcome.ok status code) token w =
              (ResendResult.in_progress,
               ⟨w.auth, w.sto, (checkLimit authConfig now w.rl (resendKey token)).2⟩,
               [Event.resendFlow token, Event.net (NetCall.resendReq token)]) := by
            simp [resendOp, hallow, hs, hcode]
          rw [hR]
          exact ⟨Or.inr (Or.inl rfl), rfl, rfl, hne2, by simp⟩
        · have hR : resendOp now (ResendOutcome.ok status code) token w =
              (ResendResult.error,
               ⟨w.auth, w.sto, recordAttempt authConfig now
                  (checkLimit authConfig now w.rl (resendKey token)).2 (resendKey token)⟩,
               [Event.resendFlow token, Event.net (NetCall.resendReq token)]) := by
            simp [resendOp, hallow, hs, hcode]
          rw [hR]
          exact ⟨Or.inr (Or.inr rfl), rfl, rfl, hne, by simp⟩

/-- Witness for C8: a concrete successful resend from a fresh world records
one attempt under `resend:t` and leaves the unrelated key `x` untouched. -/
theorem resend_rate_bookkeeping_witness :
    ((resendOp 0 (ResendOutcome.ok (some true) none) "t" emptyWorld).1 = ResendResult.sent ∨
     (resendOp 0 (ResendOutcome.ok (some true) none) "t" emptyWorld).1 = ResendResult.in_progress ∨
     (resendOp 0 (ResendOutcome.ok (some true) none) "t" emptyWorld).1 = ResendResult.error) ∧
    (resendOp 0 (ResendOutcome.ok (some true) none) "t" emptyWorld).2.1.auth = emptyWorld.auth ∧
    (resendOp 0 (ResendOutcome.ok (some true) none) "t" emptyWorld).2.1.sto = emptyWorld.sto ∧
    mapGet (resendOp 0 (ResendOutcome.ok (some true) none) "t" emptyWorld).2.1.rl "x"
      = mapGet emptyWorld.rl "x" ∧
    (resendOp 0 (ResendOutcome.ok (some true) none) "t" emptyWorld).2.1.rl =
      (if (resendOp 0 (ResendOutcome.ok (some true) none) "t" emptyWorld).1
          = ResendResult.in_progress
       then (checkLimit authConfig 0 emptyWorld.rl (resendKey "t")).2
       else recordAttempt authConfig 0
              (checkLimit authConfig 0 emptyWorld.rl (resendKey "t")).2 (resendKey "t")) :=
  ⟨(resend_rate_bookkeeping 0 (ResendOutcome.ok (some true) none) "t" emptyWorld
      (by decide)).1,
   (resend_rate_bookkeeping 0 (ResendOutcome.ok (some true) none) "t" emptyWorld
      (by decide)).2.1,
   (resend_rate_bookkeeping 0 (ResendOutcome.ok (some true) none) "t" emptyWorld
      (by decide)).2.2.1,
   (resend_rate_bookkeeping 0 (ResendOutcome.ok (some true) none) "t" emptyWorld
      (by decide)).2.2.2.1 "x" (by decide),
   (resend_rate_bookkeeping 0 (ResendOutcome.ok (some true) none) "t" emptyWorld
      (by decide)).2.2.2.2⟩

/-- Counterexample to claim C3 as stated: a `logIn` call that fails with an
error payload carrying the confirmation token `"abc123"` but whose
credentials also carry a one-time code returns `'otp_fail'` first — it does
not store `confirmEmailToken`, does not invoke the resend flow, and does
not return `'confirm_email'` (part_006 lines 141–144 precede the
unconfirmed-email branch). -/
theorem logIn_confirm_token_with_googlecode :
    (logInOp 0 (LoginOutcome.err (some ⟨some ["abc123"], none, none⟩))
        (ResendOutcome.ok (some true) none)
        ⟨"e@x.com", "pw", some "123456"⟩ emptyWorld).1 = AuthResult.otp_fail ∧
    (logInOp 0 (LoginOutcome.err (some ⟨some ["abc123"], none, none⟩))
        (ResendOutcome.ok (some true) none)
        ⟨"e@x.com", "pw", some "123456"⟩ emptyWorld).2.1.auth.confirmEmailToken = none ∧
    (logInOp 0 (LoginOutcome.err (some ⟨some ["abc123"], none, none⟩))
        (ResendOutcome.ok (some true) none)
        ⟨"e@x.com", "pw", some "123456"⟩ emptyWorld).2.2.countP
      (isResendFlowFor "abc123") = 0 := by
  decide

/-- Claim C3 as amended: a `logIn` call whose credentials carry no one-time
code and that fails with an error payload carrying a confirmation token
stores that token as `confirmEmailToken`, invokes the resend-confirmation
flow exactly once with that token, returns `'confirm_email'` unless the
nested resend resulted in `'error'`, and keeps `isLoading` true throughout
the nested call (the nested sub-trace contains no state snapshots), clearing
it only with the final snapshot after the nested call settles. -/
theorem logIn_confirm_email_branch (now : Int) (ro : ResendOutcome)
    (d : LoginErrorData) (cred : LoginRequest) (w : World) (t : String)
    (hallow : (checkLimit authConfig now w.rl cred.email).1.isAllowed = true)
    (hgc : truthyStr cred.googlecode = false)
    (htok : firstElem d.token = some t)
    (hne : t ≠ "") :
    (logInOp now (LoginOutcome.err (some d)) ro cred w).2.1.auth.confirmEmailToken
      = some t ∧
    (logInOp now (LoginOutcome.err (some d)) ro cred w).2.2.countP
      (isResendFlowFor t) = 1 ∧
    (logInOp now (LoginOutcome.err (some d)) ro cred w).1 =
      (if (resendOp now ro t
            ⟨⟨w.auth.isLogged, true, some t⟩, w.sto,
             recordAttempt authConfig now
               (checkLimit authConfig now w.rl cred.email).2 cred.email⟩).1
          = ResendResult.error
       then AuthResult.error else AuthResult.confirm_email) ∧
    (logInOp now (LoginOutcome.err (some d)) ro cred w).2.2 =
      Event.snap ⟨w.auth.isLogged, true, w.auth.confirmEmailToken⟩ ::
      Event.net NetCall.loginReq ::
      Event.snap ⟨w.auth.isLogged, true, some t⟩ ::
      ((resendOp now ro t
          ⟨⟨w.auth.isLogged, true, some t⟩, w.sto,
           recordAttempt authConfig now
             (checkLimit authConfig now w.rl cred.email).2 cred.email⟩).2.2 ++
       [Event.snap ⟨w.auth.isLogged, false, some t⟩]) ∧
    (∀ s, Event.snap s ∉ (resendOp now ro t
          ⟨⟨w.auth.isLogged, true, some t⟩, w.sto,
           recordAttempt authConfig now
             (checkLimit authConfig now w.rl cred.email).2 cred.email⟩).2.2) ∧
    (logInOp now (LoginOutcome.err (some d)) ro cred w).2.1.auth.isLoading = false := by
  have hcond : truthyStr (firstElem d.token) = true := by
    rw [htok]
    simp [truthyStr, hne]
  have hgetD : (firstElem d.token).getD "" = t := by rw [htok]; rfl
  have hpres := resendOp_preserves now ro t
    ⟨⟨w.auth.isLogged, true, some t⟩, w.sto,
     recordAttempt authConfig now
       (checkLimit authConfig now w.rl cred.email).2 cred.email⟩
  have hshape := resendOp_trace_shape now ro t
    ⟨⟨w.auth.isLogged, true, some t⟩, w.sto,
     recordAttempt authConfig now
       (checkLimit authConfig now w.rl cred.email).2 cred.email⟩
  refine ⟨?_, ?_, ?_, ?_, ?_, ?_⟩
  · simp [logInOp, hallow, hgc, hcond, hgetD, hpres.1]
  · simp only [logInOp, hallow, if_true, hgc, Bool.false_eq_true, if_false, hcond, hgetD]
    rcases hshape with h | h <;>
      simp [h, isResendFlowFor, List.countP_cons, List.countP_append]
  · simp [logInOp, hallow, hgc, hcond, hgetD]
  · simp [logInOp, hallow, hgc, hcond, hgetD, hpres.1]
  · intro s
    rcases hshape with h | h <;> simp [h]
  · simp [logInOp, hallow, hgc, hcond, hgetD]

/-- Witness for the amended C3 at a concrete input: login fails with token
`"abc123"`, no one-time code, the nested resend succeeds; the session ends
with `confirmEmailToken = "abc123"`, the resend flow ran exactly once with
that token, the result is `'confirm_email'`, and loading is cleared at the
end. -/
theorem logIn_confirm_email_branch_witness :
    (logInOp 0 (LoginOutcome.err (some ⟨some ["abc123"], none, none⟩))
        (ResendOutcome.ok (some true) none)
        ⟨"e@x.com", "pw", none⟩ emptyWorld).2.1.auth.confirmEmailToken = some "abc123" ∧
    (logInOp 0 (LoginOutcome.err (some ⟨some ["abc123"], none, none⟩))
        (ResendOutcome.ok (some true) none)
        ⟨"e@x.com", "pw", none⟩ emptyWorld).2.2.countP (isResendFlowFor "abc123") = 1 ∧
    (logInOp 0 (LoginOutcome.err (some ⟨some ["abc123"], none, none⟩))
        (ResendOutcome.ok (some true) none)
        ⟨"e@x.com", "pw", none⟩ emptyWorld).1 = AuthResult.confirm_email ∧
    (logInOp 0 (LoginOutcome.err (some ⟨some ["abc123"], none, none⟩))
        (ResendOutcome.ok (some true) none)
        ⟨"e@x.com", "pw", none⟩ emptyWorld).2.1.auth.isLoading = false := by
  have h := logIn_confirm_email_branch 0 (ResendOutcome.ok (some true) none)
    ⟨some ["abc123"], none, none⟩ ⟨"e@x.com", "pw", none⟩ emptyWorld "abc123"
    (by decide) (by decide) (by decide) (by decide)
  exact ⟨h.1, h.2.1, h.2.2.1.trans (by decide), h.2.2.2.2.2⟩

/-- A trace observes the loading discipline for a final state: its first
event is a state snapshot with `isLoading = true`, its last event is a
snapshot with `isLoading = false`, and the final state has
`isLoading = false`. -/
def loadingDisciplined (tr : List Event) (final : AuthState) : Prop :=
  (∃ s, tr.head? = some (Event.snap s) ∧ s.isLoading = true) ∧
  final.isLoading = false ∧
  (∃ s, tr.getLast? = some (Event.snap s) ∧ s.isLoading = false)

theorem loadingDisciplined_triple (a1 a2 : AuthState) (c : NetCall)
    (h1 : a1.isLoading = true) (h2 : a2.isLoading = false) :
    loadingDisciplined [Event.snap a1, Event.net c, Event.snap a2] a2 :=
  ⟨⟨a1, rfl, h1⟩, h2, ⟨a2, rfl, h2⟩⟩

theorem logInOp_loading (now : Int) (o : LoginOutcome) (ro : ResendOutcome)
    (cred : LoginRequest) (w : World)
    (hallow : (checkLimit authConfig now w.rl cred.email).1.isAllowed = true) :
    loadingDisciplined (logInOp now o ro cred w).2.2
      (logInOp now o ro cred w).2.1.auth := by
  cases o with
  | ok d =>
      simp [logInOp, hallow]
      exact loadingDisciplined_triple _ _ _ rfl rfl
  | err payload =>
      by_cases hgc : truthyStr cred.googlecode
      · simp [logInOp, hallow, hgc]
        exact loadingDisciplined_triple _ _ _ rfl rfl
      · cases payload with
        | none =>
            simp [logInOp, hallow, hgc]
            exact loadingDisciplined_triple _ _ _ rfl rfl
        | some d =>
            by_cases htok : truthyStr (firstElem d.token)
            · rcases resendOp_trace_shape now ro ((firstElem d.token).getD "")
                ⟨⟨w.auth.isLogged, true, some ((firstElem d.token).getD "")⟩, w.sto,
                 recordAttempt authConfig now
                   (checkLimit authConfig now w.rl cred.email).2 cred.email⟩ with h | h
              · simp [logInOp, hallow, hgc, htok, h]
                exact ⟨⟨_, rfl, rfl⟩, rfl, ⟨_, rfl, rfl⟩⟩
              · simp [logInOp, hallow, hgc, htok, h]
                exact ⟨⟨_, rfl, rfl⟩, rfl, ⟨_, rfl, rfl⟩⟩
            · by_cases h2fa : jsOrStr (firstElem d.type) (firstElem d.message)
                  = some "two_fa_failed"
              · simp [logInOp, hallow, hgc, htok, h2fa]
                exact loadingDisciplined_triple _ _ _ rfl rfl
              · cases hkt : (jsOrStr (firstElem d.type) (firstElem d.message)).bind
                    knownErrorTag with
                | some tag =>
                    simp [logInOp, hallow, hgc, htok, h2fa, hkt]
                    exact loadingDisciplined_triple _ _ _ rfl rfl
                | none =>
                    simp [logInOp, hallow, hgc, htok, h2fa, hkt]
                    exact loadingDisciplined_triple _ _ _ rfl rfl

theorem confirmEmailOp_loading (now : Int) (o : ConfirmOutcome) (code : String)
    (w : World)
    (hallow : (checkLimit authConfig now w.rl (verifyKey code)).1.isAllowed = true) :
    loadingDisciplined (confirmEmailOp now o code w).2.2
      (confirmEmailOp now o code w).2.1.auth := by
  cases o with
  | netFail =>
      simp [confirmEmailOp, hallow]
      exact loadingDisciplined_triple _ _ _ rfl rfl
  | ok body =>
      cases hacc : body.access with
      | none =>
          simp [confirmEmailOp, hallow, hacc]
          exact ⟨⟨_, rfl, rfl⟩, rfl, ⟨_, rfl, rfl⟩⟩
      | some acc =>
          cases href : body.refresh with
          | none =>
              simp [confirmEmailOp, hallow, hacc, href]
              exact ⟨⟨_, rfl, rfl⟩, rfl, ⟨_, rfl, rfl⟩⟩
          | some ref =>
              simp [confirmEmailOp, hallow, hacc, href]
              exact ⟨⟨_, rfl, rfl⟩, rfl, ⟨_, rfl, rfl⟩⟩

theorem getAccessTokenOp_auth (now : Int) (ro : RefreshOutcome) (lo : Bool)
    (w : World) :
    (getAccessTokenOp now ro lo w).2.1.auth = w.auth ∨
    (getAccessTokenOp now ro lo w).2.1.auth =
      { isLogged := false, isLoading := false, confirmEmailToken := none } := by
  cases hacc : w.sto.access with
  | none => exact Or.inl (by simp [getAccessTokenOp, hacc])
  | some a =>
      by_cases hexp : isTokenExpiringSoon a now
      · cases href : w.sto.refresh with
        | none => exact Or.inr (by simp [getAccessTokenOp, hacc, hexp, href, logOutOp])
        | some rt =>
            cases ro with
            | ok acc ref => exact Or.inl (by simp [getAccessTokenOp, hacc, hexp, href])
            | fail => exact Or.inr (by simp [getAccessTokenOp, hacc, hexp, href, logOutOp])
      · exact Or.inl (by simp [getAccessTokenOp, hacc, hexp])

/-- Counterexample to claim C7 as stated: `getAccessToken` — one of the
operations the claim quantifies over — performs no zustand `set` at all.
Starting from `isLoading = true` with a far-future stored access token, it
exits with `isLoading` still true and an empty event trace, so it neither
sets `isLoading = true` at entry nor `isLoading = false` on exit
(`resendConfirmationEmail` likewise never touches `isLoading`). -/
theorem getAccessToken_no_loading_counterexample :
    (getAccessTokenOp 0 RefreshOutcome.fail true
        ⟨⟨true, true, none⟩, ⟨some (Jwt.payload 1000000), none, none⟩, []⟩).2.1.auth.isLoading
      = true ∧
    (getAccessTokenOp 0 RefreshOutcome.fail true
        ⟨⟨true, true, none⟩, ⟨some (Jwt.payload 1000000), none, none⟩, []⟩).2.2 = [] := by
  decide

/-- Claim C7 as amended: `logOut`, `requestPasswordReset`, `resetPassword`
and `changePassword` always set `isLoading = true` at entry and
`isLoading = false` on every exit path; `logIn`, `register` and
`confirmEmail` do so once their pre-network check (rate limit or password
match) passes, and exit with an empty trace and an unchanged auth state when
it fails; `resendConfirmationEmail` never touches the auth state (its
loading is owned by callers, which is what lets `logIn`'s unconfirmed-email
branch keep `isLoading` true until the nested resend settles); and
`getAccessToken` leaves the auth state unchanged except when it forces a
logout. -/
theorem loading_flag_discipline :
    (∀ ok w, loadingDisciplined (logOutOp ok w).2 (logOutOp ok w).1.auth) ∧
    (∀ ok w, loadingDisciplined (requestPasswordResetOp ok w).2.2
      (requestPasswordResetOp ok w).2.1.auth) ∧
    (∀ ok w, loadingDisciplined (resetPasswordOp ok w).2.2
      (resetPasswordOp ok w).2.1.auth) ∧
    (∀ ok w, loadingDisciplined (changePasswordOp ok w).2.2
      (changePasswordOp ok w).2.1.auth) ∧
    (∀ now o ro cred w,
      (checkLimit authConfig now w.rl cred.email).1.isAllowed = true →
      loadingDisciplined (logInOp now o ro cred w).2.2
        (logInOp now o ro cred w).2.1.auth) ∧
    (∀ now o ro cred w,
      (checkLimit authConfig now w.rl cred.email).1.isAllowed = false →
      (logInOp now o ro cred w).2.2 = [] ∧
      (logInOp now o ro cred w).2.1.auth = w.auth) ∧
    (∀ o d w, d.password1 = d.password2 →
      loadingDisciplined (registerOp o d w).2.2 (registerOp o d w).2.1.auth) ∧
    (∀ o d w, d.password1 ≠ d.password2 →
      (registerOp o d w).2.2 = [] ∧ (registerOp o d w).2.1.auth = w.auth) ∧
    (∀ now o code w,
      (checkLimit authConfig now w.rl (verifyKey code)).1.isAllowed = true →
      loadingDisciplined (confirmEmailOp now o code w).2.2
        (confirmEmailOp now o code w).2.1.auth) ∧
    (∀ now o code w,
      (checkLimit authConfig now w.rl (verifyKey code)).1.isAllowed = false →
      (confirmEmailOp now o code w).2.2 = [] ∧
      (confirmEmailOp now o code w).2.1.auth = w.auth) ∧
    (∀ now o token w, (resendOp now o token w).2.1.auth = w.auth ∧
      (∀ s, Event.snap s ∉ (resendOp now o token w).2.2)) ∧
    (∀ now ro lo w, (getAccessTokenOp now ro lo w).2.1.auth = w.auth ∨
      (getAccessTokenOp now ro lo w).2.1.auth =
        { isLogged := false, isLoading := false, confirmEmailToken := none }) := by
  refine ⟨?_, ?_, ?_, ?_, ?_, ?_, ?_, ?_, ?_, ?_, ?_, ?_⟩
  · intro ok w
    simp [logOutOp]
    exact loadingDisciplined_triple _ _ _ rfl rfl
  · intro ok w
    simp [requestPasswordResetOp]
    exact loadingDisciplined_triple _ _ _ rfl rfl
  · intro ok w
    simp [resetPasswordOp]
    exact loadingDisciplined_triple _ _ _ rfl rfl
  · intro ok w
    simp [changePasswordOp]
    exact loadingDisciplined_triple _ _ _ rfl rfl
  · intro now o ro cred w hallow
    exact logInOp_loading now o ro cred w hallow
  · intro now o ro cred w hden
    simp [logInOp, hden]
  · intro o d w hm
    simp [registerOp, hm]
    exact loadingDisciplined_triple _ _ _ rfl rfl
  · intro o d w hm
    simp [registerOp, hm]
  · intro now o code w hallow
    exact confirmEmailOp_loading now o code w hallow
  · intro now o code w hden
    simp [confirmEmailOp, hden]
  · intro now o token w
    refine ⟨(resendOp_preserves now o token w).1, fun s hs => ?_⟩
    rcases resendOp_trace_shape now o token w with h | h <;> rw [h] at hs <;>
      simp at hs
  · intro now ro lo w
    exact getAccessTokenOp_auth now ro lo w

/-- Witness for the amended C7, instantiating several of its clauses at
concrete inputs: a concrete `logOut` and a rate-allowed `logIn` observe the
discipline, a password-mismatched `register` exits untouched, a rate-denied
`logIn` exits untouched, and a concrete `getAccessToken` run leaves the
auth state unchanged or logged out. -/
theorem loading_flag_discipline_witness :
    loadingDisciplined (logOutOp true emptyWorld).2 (logOutOp true emptyWorld).1.auth ∧
    loadingDisciplined
      (logInOp 0 (LoginOutcome.ok ⟨Jwt.payload 1, Jwt.payload 2, ⟨"u", "e"⟩⟩)
        ResendOutcome.netFail ⟨"e", "p", none⟩ emptyWorld).2.2
      (logInOp 0 (LoginOutcome.ok ⟨Jwt.payload 1, Jwt.payload 2, ⟨"u", "e"⟩⟩)
        ResendOutcome.netFail ⟨"e", "p", none⟩ emptyWorld).2.1.auth ∧
    ((logInOp 0 (LoginOutcome.ok ⟨Jwt.payload 1, Jwt.payload 2, ⟨"u", "e"⟩⟩)
        ResendOutcome.netFail ⟨"e", "p", none⟩
        ⟨⟨false, false, none⟩, ⟨none, none, none⟩, [("e", ⟨5, 0, some 10⟩)]⟩).2.2 = [] ∧
     (logInOp 0 (LoginOutcome.ok ⟨Jwt.payload 1, Jwt.payload 2, ⟨"u", "e"⟩⟩)
        ResendOutcome.netFail ⟨"e", "p", none⟩
        ⟨⟨false, false, none⟩, ⟨none, none, none⟩, [("e", ⟨5, 0, some 10⟩)]⟩).2.1.auth
       = (⟨⟨false, false, none⟩, ⟨none, none, none⟩,
           [("e", ⟨5, 0, some 10⟩)]⟩ : World).auth) ∧
    ((registerOp RegisterOutcome.ok ⟨"e", "a", "b"⟩ emptyWorld).2.2 = [] ∧
     (registerOp RegisterOutcome.ok ⟨"e", "a", "b"⟩ emptyWorld).2.1.auth
       = emptyWorld.auth) ∧
    ((getAccessTokenOp 0 RefreshOutcome.fail true emptyWorld).2.1.auth
        = emptyWorld.auth ∨
     (getAccessTokenOp 0 RefreshOutcome.fail true emptyWorld).2.1.auth =
        { isLogged := false, isLoading := false, confirmEmailToken := none }) :=
  ⟨loading_flag_discipline.1 true emptyWorld,
   loading_flag_discipline.2.2.2.2.1 0
     (LoginOutcome.ok ⟨Jwt.payload 1, Jwt.payload 2, ⟨"u", "e"⟩⟩)
     ResendOutcome.netFail ⟨"e", "p", none⟩ emptyWorld (by decide),
   loading_flag_discipline.2.2.2.2.2.1 0
     (LoginOutcome.ok ⟨Jwt.payload 1, Jwt.payload 2, ⟨"u", "e"⟩⟩)
     ResendOutcome.netFail ⟨"e", "p", none⟩
     ⟨⟨false, false, none⟩, ⟨none, none, none⟩, [("e", ⟨5, 0, some 10⟩)]⟩ (by decide),
   loading_flag_discipline.2.2.2.2.2.2.2.1 RegisterOutcome.ok ⟨"e", "a", "b"⟩
     emptyWorld (by decide),
   loading_flag_discipline.2.2.2.2.2.2.2.2.2.2.2 0 RefreshOutcome.fail true emptyWorld⟩

/-! ## Interceptor claims -/

theorem getAccessTokenOp_refresh_count (now : Int) (ro : RefreshOutcome)
    (lo : Bool) (w : World) :
    (getAccessTokenOp now ro lo w).2.2.countP isRefreshEvent ≤ 1 := by
  cases hacc : w.sto.access with
  | none => simp [getAccessTokenOp, hacc]
  | some a =>
      by_cases hexp : isTokenExpiringSoon a now
      · cases href : w.sto.refresh with
        | none =>
            simp [getAccessTokenOp, hacc, hexp, href, logOutOp, isRefreshEvent,
              List.countP_cons, List.countP_nil]
        | some rt =>
            cases ro with
            | ok acc ref =>
                simp [getAccessTokenOp, hacc, hexp, href, isRefreshEvent,
                  List.countP_cons, List.countP_nil]
            | fail =>
                simp [getAccessTokenOp, hacc, hexp, href, logOutOp, isRefreshEvent,
                  List.countP_cons, List.countP_nil]
      · simp [getAccessTokenOp, hacc, hexp]

/-- A world holding a far-future token pair: `getAccessToken` returns the
stored access token unchanged, so a server that keeps answering 401 keeps
being retried. -/
def chainWorld : World :=
  ⟨⟨true, false, none⟩,
   ⟨some (Jwt.payload 1000000000), some (Jwt.payload 1000000000), none⟩, []⟩

/-- A world whose access token is expiring and whose refresh token is
present, so a 401 triggers an actual refresh attempt. -/
def expiringWorld : World :=
  ⟨⟨true, false, none⟩, ⟨some (Jwt.payload 0), some (Jwt.payload 5), none⟩, []⟩

/-- Counterexample to claim C2 as stated: the interceptor carries no retry
flag, so a request that keeps failing with a 401 and a non-logout code
while `getAccessToken` keeps producing a token is resubmitted again and
again — here the same original request is dispatched 4 times within fuel 4
and the chain is still going (`exhausted`), contradicting "resubmits the
original request exactly once … no recursive retry chains". -/
theorem interceptor_retry_chain_counterexample :
    (runRequest (fun _ => ServerReply.errResp 401 "boom") 0 RefreshOutcome.fail true
        profileRoute 4 0 chainWorld).1 = ReqResult.exhausted ∧
    dispatchCount
      (runRequest (fun _ => ServerReply.errResp 401 "boom") 0 RefreshOutcome.fail true
        profileRoute 4 0 chainWorld).2.2 profileRoute = 4 := by
  decide

/-- Claim C2 as amended: each single invocation of the response
interceptor's error handler on a 401 performs at most one refresh call and
issues at most one resubmission directive; a resubmission happens only when
the status is 401, the server code is not logout-triggering, the URL is
neither allow-listed nor the refresh route, and `getAccessToken` produced
the token; and when the refresh call itself fails, a forced logout occurs
(`isLogged` ends false) and the original rejection is propagated.  (A
resubmitted request that fails again is handled afresh by a new handler
invocation; nothing bounds the resulting chain — see the counterexample.) -/
theorem interceptor_refresh_once (now : Int) (ro : RefreshOutcome) (lo : Bool)
    (resp : Option ErrResponse) (url : String) (w : World) :
    ((respOnError now ro lo resp url w).2.2.countP isRefreshEvent ≤ 1) ∧
    (∀ t, (respOnError now ro lo resp url w).1 = InterceptorAction.retry t →
      ∃ r, resp = some r ∧ r.status = 401 ∧ r.code ∉ LOGOUT_ERROR_CODES ∧
        url ∉ NO_AUTH_REQUIRED_API_ROUTES ∧ url ≠ refreshRoute ∧
        (getAccessTokenOp now ro lo w).1 = some t) ∧
    (∀ r a rt, resp = some r → r.status = 401 → r.code ∉ LOGOUT_ERROR_CODES →
      url ∉ NO_AUTH_REQUIRED_API_ROUTES → url ≠ refreshRoute →
      w.sto.access = some a → isTokenExpiringSoon a now = true →
      w.sto.refresh = some rt → ro = RefreshOutcome.fail →
      (respOnError now ro lo resp url w).1 = InterceptorAction.reject ∧
      (respOnError now ro lo resp url w).2.1.auth.isLogged = false) := by
  refine ⟨?_, ?_, ?_⟩
  · rcases resp with _ | r
    · simp [respOnError]
    · by_cases h503 : r.status = 503
      · simp [respOnError, h503]
      · by_cases h401 : r.status = 401
        · by_cases hcode : r.code ∈ LOGOUT_ERROR_CODES
          · simp [respOnError, h503, h401, hcode, logOutOp, isRefreshEvent,
              List.countP_cons, List.countP_nil]
          · by_cases hurl : url ∉ NO_AUTH_REQUIRED_API_ROUTES ∧ url ≠ refreshRoute
            · obtain ⟨hurlA, hurlB⟩ := hurl
              rcases hE : getAccessTokenOp now ro lo w with ⟨tok, w2, tr⟩
              have hc := getAccessTokenOp_refresh_count now ro lo w
              rw [hE] at hc
              cases tok with
              | none =>
                  simp only [respOnError, h503, h401, hcode, hurlA, hurlB, hE]
                  simpa [hurlA, hurlB] using hc
              | some t' =>
                  simp only [respOnError, h503, h401, hcode, hurlA, hurlB, hE]
                  simpa [hurlA, hurlB] using hc
            · simp [respOnError, h503, h401, hcode, hurl]
        · simp [respOnError, h503, h401]
  · intro t ht
    rcases resp with _ | r
    · simp [respOnError] at ht
    · by_cases h503 : r.status = 503
      · simp [respOnError, h503] at ht
      · by_cases h401 : r.status = 401
        · by_cases hcode : r.code ∈ LOGOUT_ERROR_CODES
          · simp [respOnError, h503, h401, hcode, logOutOp] at ht
          · by_cases hurl : url ∉ NO_AUTH_REQUIRED_API_ROUTES ∧ url ≠ refreshRoute
            · obtain ⟨hurlA, hurlB⟩ := hurl
              rcases hE : getAccessTokenOp now ro lo w with ⟨tok, w2, tr⟩
              cases tok with
              | none => simp [respOnError, h503, h401, hcode, hurlA, hurlB, hE] at ht
              | some t' =>
                  simp only [respOnError, h503, h401, hcode, hurlA, hurlB, hE] at ht
                  simp [hurlB] at ht
                  refine ⟨r, rfl, h401, hcode, hurlA, hurlB, ?_⟩
                  simp [ht]
            · simp [respOnError, h503, h401, hcode, hurl] at ht
        · simp [respOnError, h503, h401] at ht
  · intro r' a rt hr hst hcode hurlA hurlB hacc hexp href hro
    subst hro
    rcases resp with _ | r
    · cases hr
    · cases hr
      have h503 : ¬ r'.status = 503 := by rw [hst]; decide
      have hga : getAccessTokenOp now RefreshOutcome.fail lo w =
          (none, ⟨⟨false, false, none⟩, clearedStorage, w.rl⟩,
           Event.net (NetCall.refreshReq rt) ::
             [Event.snap { w.auth with isLoading := true },
              Event.net NetCall.logoutReq,
              Event.snap ⟨false, false, none⟩]) := by
        simp [getAccessTokenOp, hacc, hexp, href, logOutOp, clearedStorage]
      simp [respOnError, h503, hst, hcode, hurlA, hurlB, hga]

/-- Witness for the amended C2 at concrete inputs: on a 401 with code
`boom` against the profile route, a handler run makes at most one refresh
call; with a far-future token the retry directive carries exactly the token
`getAccessToken` produced; and with an expiring token whose refresh fails
the handler rejects and leaves the session logged out. -/
theorem interceptor_refresh_once_witness :
    ((respOnError 0 RefreshOutcome.fail true (some ⟨401, "boom"⟩) profileRoute
        chainWorld).2.2.countP isRefreshEvent ≤ 1) ∧
    (∃ r, (some (⟨401, "boom"⟩ : ErrResponse)) = some r ∧ r.status = 401 ∧
       r.code ∉ LOGOUT_ERROR_CODES ∧ profileRoute ∉ NO_AUTH_REQUIRED_API_ROUTES ∧
       profileRoute ≠ refreshRoute ∧
       (getAccessTokenOp 0 RefreshOutcome.fail true chainWorld).1 =
         some (Jwt.payload 1000000000)) ∧
    ((respOnError 0 RefreshOutcome.fail true (some ⟨401, "boom"⟩) profileRoute
        expiringWorld).1 = InterceptorAction.reject ∧
     (respOnError 0 RefreshOutcome.fail true (some ⟨401, "boom"⟩) profileRoute
        expiringWorld).2.1.auth.isLogged = false) :=
  ⟨(interceptor_refresh_once 0 RefreshOutcome.fail true (some ⟨401, "boom"⟩)
      profileRoute chainWorld).1,
   (interceptor_refresh_once 0 RefreshOutcome.fail true (some ⟨401, "boom"⟩)
      profileRoute chainWorld).2.1 (Jwt.payload 1000000000) (by decide),
   (interceptor_refresh_once 0 RefreshOutcome.fail true (some ⟨401, "boom"⟩)
      profileRoute expiringWorld).2.2 ⟨401, "boom"⟩ (Jwt.payload 0) (Jwt.payload 5)
      rfl rfl (by decide) (by decide) (by decide) rfl (by decide) rfl rfl⟩

end Qolca
